import Mathlib

/-!
Shallow embedding of `src/app/cert.py` (letsencrypt-marathon-lb).

The Python module orchestrates certificate issuance via the external `lego`
program and publishes the resulting certificate to the marathon-lb app
definition.  External effects (the subprocess exit status, HTTP responses,
the deployment polls) are passed in as explicit parameters; the filesystem
touched by the module (the persisted domains file and the certificate
directory) is an explicit state value.
-/

namespace Cert

/-- Distinct `Exception(...)` values raised by `cert.py`, one constructor per
distinct raise site / message. -/
inductive PyError where
  /-- "Could not get app details from marathon" (GET /v2/apps non-ok) -/
  | getAppFailed : PyError
  /-- "Could not update app. See response text for error message." (PATCH non-ok) -/
  | updateAppFailed : PyError
  /-- "Could not update app. Marathon did not return deployment id. ..." -/
  | noDeploymentId : PyError
  /-- "Failed to update app due to timeout in deployment." -/
  | deploymentTimeout : PyError
  /-- "Unknown verification method: " + method -/
  | unknownVerificationMethod (method : String) : PyError
  /-- "Obtaining certificates failed. Check lego output for error messages." -/
  | issuanceFailed : PyError
  /-- KeyError from a missing dict key such as data["app"]["labels"]["HAPROXY_0_VHOST"] -/
  | keyError (key : String) : PyError
  deriving DecidableEq, Repr

/-- `CERTIFICATES_DIR` constant from cert.py. -/
def CERTIFICATES_DIR : String := ".lego/certificates/"

/-- `HAPROXY_SSL_CERT` constant from cert.py. -/
def HAPROXY_SSL_CERT : String := "HAPROXY_SSL_CERT"

/-- `LEGO_ARGS_HTTP` constant from cert.py. -/
def LEGO_ARGS_HTTP : List String := ["--http", ":8080", "--exclude", "tls-sni-01"]

/-- `LEGO_ARGS_DNS` constant from cert.py. -/
def LEGO_ARGS_DNS : List String := ["--dns-resolvers", "8.8.8.8:53", "--exclude", "http-01"]

/-- The part of the filesystem cert.py touches: the contents of
`.lego/current_domains` (`none` when the file does not exist) and the set of
other paths that exist (the certificate files under `.lego/certificates/`). -/
structure FsState where
  domainsFile : Option String
  existingFiles : List String
  deriving DecidableEq, Repr

/-- `read_domains_from_last_time`: returns the file contents, or the empty
string when `.lego/current_domains` does not exist. -/
def read_domains_from_last_time (fs : FsState) : String :=
  match fs.domainsFile with
  | some contents => contents
  | none => ""

/-- `write_domains_to_file`: overwrites `.lego/current_domains` with `domains`. -/
def write_domains_to_file (fs : FsState) (domains : String) : FsState :=
  { fs with domainsFile := some domains }

/-- `get_cert_filepath`: path of the combined `<domain>.pem`, wildcard `*`
replaced by `_`. -/
def get_cert_filepath (domain_name : String) : String :=
  let domain_name :=
    if domain_name.startsWith "*" then domain_name.replace "*" "_" else domain_name
  CERTIFICATES_DIR ++ "/" ++ domain_name ++ ".pem"

/-- The `.crt` path probed by `generate_letsencrypt_cert` via `os.path.exists`
("%(path)s/%(domain_name)s.crt"). -/
def crt_filepath (domain_name : String) : String :=
  CERTIFICATES_DIR ++ "/" ++ domain_name ++ ".crt"

/-- `os.path.exists` over the embedded filesystem state. -/
def path_exists (fs : FsState) (path : String) : Bool :=
  fs.existingFiles.contains path

/-- The environment variables cert.py consults (each may be unset). -/
structure Config where
  /-- LETSENCRYPT_VERIFICATION_METHOD -/
  verification_method : Option String
  /-- DOMAINS -/
  domains_var : Option String
  /-- DNSPROVIDER -/
  dnsprovider : Option String
  deriving DecidableEq, Repr

/-- The parts of a marathon app-definition JSON (`data["app"]`) that cert.py
reads: `labels`, `env` and `secrets`, each a string-keyed dict. -/
structure MarathonApp where
  labels : List (String × String)
  env : List (String × String)
  secrets : List (String × String)
  deriving DecidableEq, Repr

/-- Python `d.get(key, default)` on a string dict. -/
def dict_get (d : List (String × String)) (key dflt : String) : String :=
  match d.lookup key with
  | some v => v
  | none => dflt

/-- Python `d[key] = v` on a string dict: replace the binding in place, or
append a new one. -/
def dict_set : List (String × String) → String → String → List (String × String)
  | [], key, v => [(key, v)]
  | (k, w) :: rest, key, v =>
      if k = key then (key, v) :: rest else (k, w) :: dict_set rest key v

/-- `get_domains`.  `fetched` is the outcome of the unconditional
`get_marathon_app(os.environ.get(ENV_MARATHON_APP_ID))` call on its first
line (`none` = non-ok response, which raises).  The second component counts
reads of the platform's application-definition endpoint.  The value is
`Option String` because in dns mode Python returns `os.environ.get(DOMAINS)`,
which is `None` when the variable is unset. -/
def get_domains (cfg : Config) (fetched : Option MarathonApp) :
    Except PyError (Option String) × Nat :=
  -- data = get_marathon_app(...): one platform read, performed before any branch
  match fetched with
  | none => (.error .getAppFailed, 1)
  | some data =>
    let verification_method := cfg.verification_method.getD "http"
    if verification_method = "http" then
      (match data.labels.lookup "HAPROXY_0_VHOST" with
       | some vhost => .ok (some vhost)
       | none => .error (.keyError "HAPROXY_0_VHOST"), 1)
    else if verification_method = "dns" then
      (.ok cfg.domains_var, 1)
    else
      (.error (.unknownVerificationMethod verification_method), 1)

/-- The `--domains <d>` pairs built from `domains.split(",")` in
`generate_letsencrypt_cert`. -/
def build_domain_args (domains : String) : List String :=
  ((domains.splitOn ",").map (fun domain => ["--domains", domain])).flatten

/-- The challenge-type arguments appended after the domain flags, selected on
`os.environ.get(ENV_VERIFICATION_METHOD, "http")`.  An unknown method appends
nothing (`generate_letsencrypt_cert` has no else branch). -/
def add_challenge_args (args : List String) (cfg : Config) : List String :=
  let verification_method := cfg.verification_method.getD "http"
  if verification_method = "http" then
    args ++ LEGO_ARGS_HTTP
  else if verification_method = "dns" then
    args ++ ["--dns", cfg.dnsprovider.getD "route53"] ++ LEGO_ARGS_DNS
  else
    args

/-- The full lego argument list built by `generate_letsencrypt_cert` (after the
`DEFAULT_LEGO_ARGS` constant): domain flags, challenge flags, then the mode
token `renew --days 80` (when the domains are unchanged and the `.crt` for the
first domain exists) or `run`. -/
def generate_args (domains : String) (cfg : Config) (fs : FsState) : List String :=
  let domains_changed : Bool := domains != read_domains_from_last_time fs
  let first_domain := (domains.splitOn ",").headD ""
  let args := add_challenge_args (build_domain_args domains) cfg
  if !domains_changed && path_exists fs (crt_filepath first_domain) then
    args ++ ["renew", "--days", "80"]
  else
    args ++ ["run"]

/-- Outcome of `generate_letsencrypt_cert`: the lego argument list it invoked,
the filesystem state after the call, and either the returned first domain or
the raised error. -/
structure GenResult where
  args : List String
  fs : FsState
  result : Except PyError String
  deriving Repr

/-- `generate_letsencrypt_cert`.  `lego_returncode` is the exit status of the
`subprocess.run` invocation of lego.  A nonzero status raises and leaves the
filesystem untouched; on zero the new domains are persisted and the first
domain returned. -/
def generate_letsencrypt_cert (domains : String) (cfg : Config) (fs : FsState)
    (lego_returncode : Int) : GenResult :=
  let first_domain := (domains.splitOn ",").headD ""
  let args := generate_args domains cfg fs
  if lego_returncode != 0 then
    { args := args, fs := fs, result := .error .issuanceFailed }
  else
    { args := args, fs := write_domains_to_file fs domains, result := .ok first_domain }

/-- The PATCH body `update_marathon_app` would submit (`env` and `secrets`
keyword arguments; the `id` field is the app id). -/
structure PatchRequest where
  env : List (String × String)
  secrets : List (String × String)
  deriving DecidableEq, Repr

/-- `upload_cert_to_marathon_lb`, given the certificate bytes read from the
certificate file and the fetched marathon-lb app definition.  Returns the
PATCH request submitted, or `none` when the stored certificate already equals
`cert_data` ("Certificate not changed. Not doing anything"). -/
def upload_cert_to_marathon_lb (cert_data : String) (app_data : MarathonApp) :
    Option PatchRequest :=
  let env := app_data.env
  if dict_get env HAPROXY_SSL_CERT "" != cert_data then
    some { env := dict_set env HAPROXY_SSL_CERT cert_data,
           secrets := app_data.secrets }
  else
    none

/-- Effect of a submitted PATCH on the platform's app definition: `env` and
`secrets` are replaced by the request's; `none` (no request) changes nothing. -/
def apply_patch (app_data : MarathonApp) : Option PatchRequest → MarathonApp
  | none => app_data
  | some patch => { app_data with env := patch.env, secrets := patch.secrets }

/-- The response-handling prefix of `update_marathon_app` (before the wait
loop): a non-ok PATCH response raises, an ok response without a
`deploymentId` field raises, otherwise the deployment id is extracted. -/
def update_marathon_app_response (response_ok : Bool) (deploymentId : Option String) :
    Except PyError String :=
  if !response_ok then
    .error .updateAppFailed
  else
    match deploymentId with
    | none => .error .noDeploymentId
    | some dep => .ok dep

/-- The deployment wait loop of `update_marathon_app`.  `polls n` is the list
of in-flight deployment ids returned by the n-th `GET /v2/deployments`
(1-indexed); `polls_done` counts completed polls and `sum_wait_time` the
seconds slept so far (always `5 * polls_done`).  Each iteration sleeps 5s,
polls, recomputes `deployment_exists`, and then — regardless of that result —
raises the timeout if `sum_wait_time > 60*5`.  On success it returns the
number of polls performed. -/
def update_marathon_app_wait (polls : Nat → List String) (deployment_id : String)
    (polls_done sum_wait_time : Nat) : Except PyError Nat :=
  let deployment_exists := (polls (polls_done + 1)).contains deployment_id
  if h : sum_wait_time + 5 > 60 * 5 then
    .error .deploymentTimeout
  else if deployment_exists then
    update_marathon_app_wait polls deployment_id (polls_done + 1) (sum_wait_time + 5)
  else
    .ok (polls_done + 1)
termination_by 301 - sum_wait_time
decreasing_by simp_wf; omega

/-- `update_marathon_app` in full: parse the PATCH response, then wait for the
deployment to leave the in-flight list. -/
def update_marathon_app (response_ok : Bool) (deploymentId : Option String)
    (polls : Nat → List String) : Except PyError Nat :=
  match update_marathon_app_response response_ok deploymentId with
  | .error e => .error e
  | .ok dep => update_marathon_app_wait polls dep 0 0

/-- The retry loop of `run_client_with_backoff`.  `attempt_ok i` is whether the
i-th `run_client()` call (0-indexed) succeeds.  Returns the list of sleeps
performed and whether the loop ended in success (`true`) or by re-raising the
last error (`false`).  The positivity argument records that
`backoff_seconds` (initially 30, doubled each failure) never reaches 0. -/
def run_client_with_backoff_go (attempt_ok : Nat → Bool) (attempt : Nat)
    (backoff_seconds : Nat) (hb : 0 < backoff_seconds) (sum_wait_time : Nat)
    (sleeps : List Nat) : List Nat × Bool :=
  if attempt_ok attempt then
    (sleeps, true)
  else if h : sum_wait_time ≥ 60 * 60 then
    (sleeps, false)
  else
    run_client_with_backoff_go attempt_ok (attempt + 1) (backoff_seconds * 2)
      (by omega) (sum_wait_time + backoff_seconds) (sleeps ++ [backoff_seconds])
termination_by 60 * 60 - sum_wait_time
decreasing_by simp_wf; omega

/-- `run_client_with_backoff`: starts with a 30-second backoff and no elapsed
wait. -/
def run_client_with_backoff (attempt_ok : Nat → Bool) : List Nat × Bool :=
  run_client_with_backoff_go attempt_ok 0 30 (by omega) 0 []

/-! Sample inputs used by witnesses and counterexamples. -/

/-- A sample marathon-lb app definition. -/
def app_sample : MarathonApp :=
  { labels := [("HAPROXY_0_VHOST", "a.example.com,b.example.com")],
    env := [("HAPROXY_SSL_CERT", "OLDCERT")],
    secrets := [("cred", "secret0")] }

/-- An app definition whose deployed certificate is already "CERT". -/
def app_cert_current : MarathonApp :=
  { labels := [], env := [("HAPROXY_SSL_CERT", "CERT")], secrets := [] }

/-- http verification configured explicitly. -/
def cfg_http : Config :=
  { verification_method := some "http", domains_var := none, dnsprovider := none }

/-- dns verification with a static domain list. -/
def cfg_dns : Config :=
  { verification_method := some "dns", domains_var := some "x.example.com",
    dnsprovider := none }

/-- dns verification with DOMAINS set to the empty string. -/
def cfg_dns_empty : Config :=
  { verification_method := some "dns", domains_var := some "", dnsprovider := none }

/-- No verification method configured. -/
def cfg_default : Config :=
  { verification_method := none, domains_var := none, dnsprovider := none }

/-- An unrecognized verification method. -/
def cfg_bad : Config :=
  { verification_method := some "tls", domains_var := none, dnsprovider := none }

/-- A filesystem state with a persisted domains file and no certificates. -/
def fs_sample : FsState := { domainsFile := some "old.example.com", existingFiles := [] }

/-- Poll results where the tracked deployment is in flight for the first 60
polls and gone from the 61st on. -/
def polls_present_60 : Nat → List String := fun n => if n ≤ 60 then ["dep-1"] else []

/-- Poll results where the tracked deployment leaves the in-flight list at the
3rd poll. -/
def polls_absent_after_2 : Nat → List String := fun n => if n ≤ 2 then ["dep-1"] else []

/-- Poll results where the tracked deployment never leaves the in-flight list. -/
def polls_always : Nat → List String := fun _ => ["dep-1"]

/-- An attempt sequence whose 4th pipeline attempt (index 3) succeeds. -/
def attempt_ok_at_3 : Nat → Bool := fun i => i == 3

/-! Helper lemmas. -/

lemma wait_step_timeout (polls : Nat → List String) (dep_id : String) (n s : Nat)
    (h : s + 5 > 300) :
    update_marathon_app_wait polls dep_id n s = .error .deploymentTimeout := by
  rw [update_marathon_app_wait.eq_def]
  split
  · rfl
  · omega

lemma wait_step_present (polls : Nat → List String) (dep_id : String) (n s : Nat)
    (h1 : s + 5 ≤ 300) (h2 : (polls (n + 1)).contains dep_id = true) :
    update_marathon_app_wait polls dep_id n s =
      update_marathon_app_wait polls dep_id (n + 1) (s + 5) := by
  rw [update_marathon_app_wait.eq_def]
  simp only [h2]
  rw [dif_neg (by omega)]
  simp

lemma wait_step_absent (polls : Nat → List String) (dep_id : String) (n s : Nat)
    (h1 : s + 5 ≤ 300) (h2 : (polls (n + 1)).contains dep_id = false) :
    update_marathon_app_wait polls dep_id n s = .ok (n + 1) := by
  rw [update_marathon_app_wait.eq_def]
  simp only [h2]
  rw [dif_neg (by omega)]
  simp

lemma wait_runs_to_ok (polls : Nat → List String) (dep_id : String) (n : Nat)
    (hn1 : 1 ≤ n) (hn : n ≤ 60)
    (hpres : ∀ m, 1 ≤ m → m < n → (polls m).contains dep_id = true)
    (habs : (polls n).contains dep_id = false) :
    update_marathon_app_wait polls dep_id 0 0 = .ok n := by
  have aux : ∀ d k, n = k + d + 1 →
      update_marathon_app_wait polls dep_id k (5 * k) = .ok n := by
    intro d
    induction d with
    | zero =>
      intro k hk
      have h5 : 5 * k + 5 ≤ 300 := by omega
      have : update_marathon_app_wait polls dep_id k (5 * k) = .ok (k + 1) :=
        wait_step_absent polls dep_id k (5 * k) h5
          (by rw [show k + 1 = n by omega]; exact habs)
      rw [this]; congr 1; omega
    | succ d ih =>
      intro k hk
      have h5 : 5 * k + 5 ≤ 300 := by omega
      have hc : (polls (k + 1)).contains dep_id = true :=
        hpres (k + 1) (by omega) (by omega)
      rw [wait_step_present polls dep_id k (5 * k) h5 hc]
      rw [show 5 * k + 5 = 5 * (k + 1) by omega]
      exact ih (k + 1) (by omega)
  have := aux (n - 1) 0 (by omega)
  simpa using this

lemma wait_runs_to_timeout (polls : Nat → List String) (dep_id : String)
    (hpres : ∀ m, 1 ≤ m → m ≤ 60 → (polls m).contains dep_id = true) :
    update_marathon_app_wait polls dep_id 0 0 = .error .deploymentTimeout := by
  have aux : ∀ d k, k + d = 60 →
      update_marathon_app_wait polls dep_id k (5 * k) = .error .deploymentTimeout := by
    intro d
    induction d with
    | zero =>
      intro k hk
      exact wait_step_timeout polls dep_id k (5 * k) (by omega)
    | succ d ih =>
      intro k hk
      have h5 : 5 * k + 5 ≤ 300 := by omega
      have hc : (polls (k + 1)).contains dep_id = true :=
        hpres (k + 1) (by omega) (by omega)
      rw [wait_step_present polls dep_id k (5 * k) h5 hc]
      rw [show 5 * k + 5 = 5 * (k + 1) by omega]
      exact ih (k + 1) (by omega)
  have := aux 60 0 (by omega)
  simpa using this

lemma backoff_step_ok (f : Nat → Bool) (i b s : Nat) (hb : 0 < b) (sl : List Nat)
    (hf : f i = true) :
    run_client_with_backoff_go f i b hb s sl = (sl, true) := by
  rw [run_client_with_backoff_go.eq_def]
  simp [hf]

lemma backoff_step_raise (f : Nat → Bool) (i b s : Nat) (hb : 0 < b) (sl : List Nat)
    (hf : f i = false) (hs : 3600 ≤ s) :
    run_client_with_backoff_go f i b hb s sl = (sl, false) := by
  rw [run_client_with_backoff_go.eq_def]
  simp [hf]
  omega

lemma backoff_step_sleep (f : Nat → Bool) (i b s : Nat) (hb : 0 < b) (sl : List Nat)
    (hf : f i = false) (hs : s < 3600) (hb2 : 0 < b * 2) :
    run_client_with_backoff_go f i b hb s sl =
      run_client_with_backoff_go f (i + 1) (b * 2) hb2 (s + b) (sl ++ [b]) := by
  rw [run_client_with_backoff_go.eq_def]
  simp [hf]
  omega

lemma backoff_runs_to_ok (f : Nat → Bool) (k : Nat) (hk : k ≤ 7)
    (hfail : ∀ j, j < k → f j = false) (hok : f k = true) :
    run_client_with_backoff f = ((List.range k).map (fun j => 30 * 2 ^ j), true) := by
  have aux : ∀ d i b s (h' : 0 < b) sl, i + d = k → b = 30 * 2 ^ i →
      s = 30 * (2 ^ i - 1) → sl = (List.range i).map (fun j => 30 * 2 ^ j) →
      run_client_with_backoff_go f i b h' s sl =
        ((List.range k).map (fun j => 30 * 2 ^ j), true) := by
    intro d
    induction d with
    | zero =>
      intro i b s h' sl hik hb hs hsl
      have hik' : i = k := by omega
      subst hik'
      rw [backoff_step_ok f i b s h' sl hok, hsl]
    | succ d ih =>
      intro i b s h' sl hik hb hs hsl
      have hi7 : i ≤ 6 := by omega
      have hpow : 2 ^ i ≤ 64 := by
        calc 2 ^ i ≤ 2 ^ 6 := Nat.pow_le_pow_right (by norm_num) hi7
        _ = 64 := by norm_num
      have h1 : 1 ≤ 2 ^ i := Nat.one_le_two_pow
      have hs' : s < 3600 := by omega
      have hf : f i = false := hfail i (by omega)
      rw [backoff_step_sleep f i b s h' sl hf hs' (by omega)]
      apply ih (i + 1) (b * 2) (s + b) (by omega) (sl ++ [b]) (by omega)
      · rw [hb, pow_succ]; ring
      · rw [hs, hb, pow_succ]; omega
      · rw [hsl, hb, List.range_succ, List.map_append]; simp
  have h30 : (0 : Nat) < 30 := by omega
  have := aux k 0 30 0 h30 [] (by omega) (by norm_num) (by norm_num) (by simp)
  rw [run_client_with_backoff]
  exact this

lemma backoff_runs_to_giveup (f : Nat → Bool) (hfail : ∀ j, j ≤ 7 → f j = false) :
    run_client_with_backoff f = ((List.range 7).map (fun j => 30 * 2 ^ j), false) := by
  have aux : ∀ d i b s (h' : 0 < b) sl, i + d = 7 → b = 30 * 2 ^ i →
      s = 30 * (2 ^ i - 1) → sl = (List.range i).map (fun j => 30 * 2 ^ j) →
      run_client_with_backoff_go f i b h' s sl =
        ((List.range 7).map (fun j => 30 * 2 ^ j), false) := by
    intro d
    induction d with
    | zero =>
      intro i b s h' sl hik hb hs hsl
      have hik' : i = 7 := by omega
      subst hik'
      have hs' : 3600 ≤ s := by rw [hs]; norm_num
      rw [backoff_step_raise f 7 b s h' sl (hfail 7 (by omega)) hs', hsl]
    | succ d ih =>
      intro i b s h' sl hik hb hs hsl
      have hi7 : i ≤ 6 := by omega
      have hpow : 2 ^ i ≤ 64 := by
        calc 2 ^ i ≤ 2 ^ 6 := Nat.pow_le_pow_right (by norm_num) hi7
        _ = 64 := by norm_num
      have h1 : 1 ≤ 2 ^ i := Nat.one_le_two_pow
      have hs' : s < 3600 := by omega
      have hf : f i = false := hfail i (by omega)
      rw [backoff_step_sleep f i b s h' sl hf hs' (by omega)]
      apply ih (i + 1) (b * 2) (s + b) (by omega) (sl ++ [b]) (by omega)
      · rw [hb, pow_succ]; ring
      · rw [hs, hb, pow_succ]; omega
      · rw [hsl, hb, List.range_succ, List.map_append]; simp
  have h30 : (0 : Nat) < 30 := by omega
  have := aux 7 0 30 0 h30 [] (by omega) (by norm_num) (by norm_num) (by simp)
  rw [run_client_with_backoff]
  exact this

lemma dict_get_set_same (d : List (String × String)) (key v dflt : String) :
    dict_get (dict_set d key v) key dflt = v := by
  induction d with
  | nil => simp [dict_get, dict_set]
  | cons a rest ih =>
    obtain ⟨k, w⟩ := a
    by_cases hk : k = key
    · simp [dict_get, dict_set, hk]
    · have hbk : (key == k) = false := beq_eq_false_iff_ne.mpr (Ne.symm hk)
      simpa [dict_get, dict_set, hk, List.lookup, hbk] using ih

/-! Claim theorems. -/

/-- Claim C1: the issuer selects renewal mode (mode suffix `renew --days 80`)
iff the current DomainSet equals the persisted one and the `.crt` certificate
file for its primary (first) domain exists; in every other case it selects
full-issuance mode (mode suffix `run`). -/
theorem c1_issuance_mode (domains : String) (cfg : Config) (fs : FsState) (rc : Int) :
    ((generate_letsencrypt_cert domains cfg fs rc).args =
        add_challenge_args (build_domain_args domains) cfg ++ ["renew", "--days", "80"] ↔
      domains = read_domains_from_last_time fs ∧
        path_exists fs (crt_filepath ((domains.splitOn ",").headD "")) = true) ∧
    ((generate_letsencrypt_cert domains cfg fs rc).args =
        add_challenge_args (build_domain_args domains) cfg ++ ["run"] ↔
      ¬(domains = read_domains_from_last_time fs ∧
        path_exists fs (crt_filepath ((domains.splitOn ",").headD "")) = true)) := by
  have hargs : (generate_letsencrypt_cert domains cfg fs rc).args =
      generate_args domains cfg fs := by
    unfold generate_letsencrypt_cert
    split <;> rfl
  rw [hargs]
  simp only [generate_args]
  have hiff : ((!(domains != read_domains_from_last_time fs) &&
      path_exists fs (crt_filepath ((domains.splitOn ",").headD ""))) = true) ↔
      (domains = read_domains_from_last_time fs ∧
        path_exists fs (crt_filepath ((domains.splitOn ",").headD "")) = true) := by
    simp [bne]
  by_cases hc : domains = read_domains_from_last_time fs ∧
      path_exists fs (crt_filepath ((domains.splitOn ",").headD "")) = true
  · rw [if_pos (hiff.mpr hc)]
    constructor
    · exact iff_of_true rfl hc
    · refine iff_of_false (fun h => ?_) (not_not_intro hc)
      have h2 := List.append_cancel_left h
      simp at h2
  · rw [if_neg (fun h => hc (hiff.mp h))]
    constructor
    · refine iff_of_false (fun h => ?_) hc
      have h2 := List.append_cancel_left h
      simp at h2
    · exact iff_of_true rfl hc

/-- Claim C2: publishing is idempotent — when the certificate environment
variable already holds exactly the certificate bytes, no PATCH is submitted;
and a second publish with byte-identical content after the first one's PATCH
took effect submits nothing. -/
theorem c2_idempotent (cert_data : String) (app_data : MarathonApp) :
    (dict_get app_data.env HAPROXY_SSL_CERT "" = cert_data →
      upload_cert_to_marathon_lb cert_data app_data = none) ∧
    upload_cert_to_marathon_lb cert_data
      (apply_patch app_data (upload_cert_to_marathon_lb cert_data app_data)) = none := by
  have hnone : ∀ a : MarathonApp, dict_get a.env HAPROXY_SSL_CERT "" = cert_data →
      upload_cert_to_marathon_lb cert_data a = none := by
    intro a h
    unfold upload_cert_to_marathon_lb
    simp [h]
  refine ⟨hnone app_data, ?_⟩
  by_cases heq : dict_get app_data.env HAPROXY_SSL_CERT "" = cert_data
  · rw [hnone app_data heq]
    exact hnone app_data heq
  · have hsome : upload_cert_to_marathon_lb cert_data app_data =
        some { env := dict_set app_data.env HAPROXY_SSL_CERT cert_data,
               secrets := app_data.secrets } := by
      unfold upload_cert_to_marathon_lb
      simp [heq]
    rw [hsome]
    apply hnone
    simp [apply_patch]
    exact dict_get_set_same app_data.env HAPROXY_SSL_CERT cert_data ""

/-- Witness for C2 at concrete inputs. -/
theorem c2_idempotent_witness :
    upload_cert_to_marathon_lb "CERT" app_cert_current = none ∧
    upload_cert_to_marathon_lb "NEWCERT"
      (apply_patch app_sample (upload_cert_to_marathon_lb "NEWCERT" app_sample)) = none :=
  ⟨(c2_idempotent "CERT" app_cert_current).1 (by decide),
   (c2_idempotent "NEWCERT" app_sample).2⟩

/-- Claim C6: the persisted-domain store round-trips — writing a DomainSet and
reading yields exactly it, and reading with no state file yields the empty
string, never an error. -/
theorem c6_round_trip :
    (∀ (fs : FsState) (d : String),
      read_domains_from_last_time (write_domains_to_file fs d) = d) ∧
    (∀ fs : FsState, fs.domainsFile = none → read_domains_from_last_time fs = "") := by
  constructor
  · intro fs d
    rfl
  · intro fs h
    unfold read_domains_from_last_time
    rw [h]

/-- Witness for C6 at concrete inputs. -/
theorem c6_round_trip_witness :
    read_domains_from_last_time
        (write_domains_to_file fs_sample "a.example.com,b.example.com") =
      "a.example.com,b.example.com" ∧
    read_domains_from_last_time { domainsFile := none, existingFiles := [] } = "" :=
  ⟨c6_round_trip.1 fs_sample "a.example.com,b.example.com",
   c6_round_trip.2 { domainsFile := none, existingFiles := [] } rfl⟩

/-- Claim C7: issuance is atomic with respect to persisted domain state — a
nonzero lego exit raises the issuance error and leaves the domains file
untouched; the new DomainSet is written exactly when lego exits 0. -/
theorem c7_atomic (domains : String) (cfg : Config) (fs : FsState) (rc : Int) :
    (rc ≠ 0 →
      (generate_letsencrypt_cert domains cfg fs rc).fs = fs ∧
      (generate_letsencrypt_cert domains cfg fs rc).result = .error .issuanceFailed) ∧
    (rc = 0 →
      (generate_letsencrypt_cert domains cfg fs rc).fs = write_domains_to_file fs domains ∧
      (generate_letsencrypt_cert domains cfg fs rc).result =
        .ok ((domains.splitOn ",").headD "")) := by
  constructor
  · intro h
    have hb : (rc != 0) = true := bne_iff_ne.mpr h
    unfold generate_letsencrypt_cert
    rw [if_pos hb]
    exact ⟨rfl, rfl⟩
  · intro h
    have hb : ¬((rc != 0) = true) := by simp [h]
    unfold generate_letsencrypt_cert
    rw [if_neg hb]
    exact ⟨rfl, rfl⟩

/-- Witness for C7 at concrete inputs. -/
theorem c7_atomic_witness :
    (generate_letsencrypt_cert "a.example.com" cfg_http fs_sample 1).fs = fs_sample ∧
    (generate_letsencrypt_cert "a.example.com" cfg_http fs_sample 0).fs =
      write_domains_to_file fs_sample "a.example.com" :=
  ⟨((c7_atomic "a.example.com" cfg_http fs_sample 1).1 (by norm_num)).1,
   ((c7_atomic "a.example.com" cfg_http fs_sample 0).2 rfl).1⟩

/-- Claim C3 counterexample: with the tracked id present in polls 1..60 and
absent from poll 61, the waiter raises the deployment timeout even though its
final poll shows the id absent — refuting "it never reports timeout on a poll
whose result shows the id absent". -/
theorem c3_counterexample :
    (polls_present_60 61).contains "dep-1" = false ∧
    update_marathon_app_wait polls_present_60 "dep-1" 0 0 = .error .deploymentTimeout := by
  constructor
  · decide
  · apply wait_runs_to_timeout
    intro m h1 h60
    unfold polls_present_60
    rw [if_pos h60]
    decide

/-- Claim C3 as amended: the waiter returns successfully at the first poll
within the 300-second ceiling (polls 1..60) that no longer contains the
tracked id; if the id is present in all of the first 60 polls it raises the
deployment timeout at poll 61 regardless of that poll's content. -/
theorem c3_amended :
    (∀ (polls : Nat → List String) (dep_id : String) (n : Nat),
      1 ≤ n → n ≤ 60 →
      (∀ m, 1 ≤ m → m < n → (polls m).contains dep_id = true) →
      (polls n).contains dep_id = false →
      update_marathon_app_wait polls dep_id 0 0 = .ok n) ∧
    (∀ (polls : Nat → List String) (dep_id : String),
      (∀ m, 1 ≤ m → m ≤ 60 → (polls m).contains dep_id = true) →
      update_marathon_app_wait polls dep_id 0 0 = .error .deploymentTimeout) :=
  ⟨fun polls dep_id n h1 h60 hp ha => wait_runs_to_ok polls dep_id n h1 h60 hp ha,
   fun polls dep_id hp => wait_runs_to_timeout polls dep_id hp⟩

/-- Witness for the amended C3: completion after exactly 3 polls when the id
disappears at the 3rd poll, timeout when it never disappears. -/
theorem c3_amended_witness :
    update_marathon_app_wait polls_absent_after_2 "dep-1" 0 0 = .ok 3 ∧
    update_marathon_app_wait polls_always "dep-1" 0 0 = .error .deploymentTimeout := by
  constructor
  · exact c3_amended.1 polls_absent_after_2 "dep-1" 3 (by norm_num) (by norm_num)
      (by intro m h1 h2; interval_cases m <;> decide) (by decide)
  · exact c3_amended.2 polls_always "dep-1" (by intro m h1 h2; rfl)

/-- Claim C4 counterexample: with every attempt failing, the wrapper sleeps
30, 60, 120, 240, 480, 960 and 1920 seconds — 3810 seconds in total, past the
3600-second budget — refuting "never sleeping past that total budget". -/
theorem c4_counterexample :
    run_client_with_backoff (fun _ => false) = ([30, 60, 120, 240, 480, 960, 1920], false) ∧
    ([30, 60, 120, 240, 480, 960, 1920] : List Nat).sum = 3810 ∧ 3600 < 3810 := by
  refine ⟨?_, by norm_num, by norm_num⟩
  have h := backoff_runs_to_giveup (fun _ => false) (fun _ _ => rfl)
  rw [h]
  decide

/-- Claim C4 as amended: the wrapper waits 30 seconds before the second
attempt and doubles the wait after each failure (sleep j is 30·2^j); it
re-raises at the first failure whose already-elapsed cumulative wait is at
least 3600 seconds, which with the doubling sequence is after 7 sleeps whose
total, 3810 seconds, exceeds the 3600-second budget. -/
theorem c4_amended :
    (∀ (f : Nat → Bool) (k : Nat), k ≤ 7 → (∀ j, j < k → f j = false) → f k = true →
      run_client_with_backoff f = ((List.range k).map (fun j => 30 * 2 ^ j), true)) ∧
    (∀ f : Nat → Bool, (∀ j, j ≤ 7 → f j = false) →
      run_client_with_backoff f = ((List.range 7).map (fun j => 30 * 2 ^ j), false)) ∧
    ((List.range 7).map (fun j => 30 * 2 ^ j)).sum = 3810 :=
  ⟨fun f k hk hf hok => backoff_runs_to_ok f k hk hf hok,
   fun f hf => backoff_runs_to_giveup f hf,
   by decide⟩

/-- Witness for the amended C4: with the 4th attempt succeeding, the wrapper
sleeps 30, 60 and 120 seconds and returns successfully. -/
theorem c4_amended_witness :
    run_client_with_backoff attempt_ok_at_3 = ([30, 60, 120], true) := by
  have h := c4_amended.1 attempt_ok_at_3 3 (by norm_num)
      (by intro j hj; interval_cases j <;> rfl) rfl
  rw [h]
  decide

/-- Claim C5 counterexample: with the verification method set to dns, the
resolver still performs one read of the platform's application-definition
endpoint, refuting "in dns mode resolving performs no platform read". -/
theorem c5_counterexample :
    cfg_dns.verification_method = some "dns" ∧
    (get_domains cfg_dns (some app_sample)).2 = 1 ∧ (1 : Nat) ≠ 0 :=
  ⟨rfl, rfl, by norm_num⟩

/-- Claim C5 as amended: the resolver performs exactly one read of the
platform's application-definition endpoint in every mode — http, dns, or an
unknown method — because the fetch precedes the branch on the method. -/
theorem c5_amended (cfg : Config) (fetched : Option MarathonApp) :
    (get_domains cfg fetched).2 = 1 := by
  unfold get_domains
  cases fetched with
  | none => rfl
  | some data =>
    dsimp only
    split_ifs <;> rfl

/-- Claim C8: a successful PATCH response whose body lacks a deployment id
makes the publisher raise (and `update_marathon_app` propagate) the
missing-deployment-id error; it is never treated as a completed update. -/
theorem c8_no_deployment_id :
    update_marathon_app_response true none = .error .noDeploymentId ∧
    (∀ polls : Nat → List String,
      update_marathon_app true none polls = .error .noDeploymentId) :=
  ⟨rfl, fun _ => rfl⟩

/-- Claim C9 counterexample: in dns mode with DOMAINS set to the empty string
the resolver produces the empty DomainSet, refuting "every DomainSet produced
by the DomainResolver is non-empty". -/
theorem c9_counterexample :
    (get_domains cfg_dns_empty (some app_sample)).1 = .ok (some "") ∧
    ("" : String).length = 0 :=
  ⟨rfl, rfl⟩

/-- Claim C9 as amended: the resolver passes its source value through
unchanged — the HAPROXY_0_VHOST label in http mode, the DOMAINS variable in
dns mode — so the produced DomainSet is non-empty exactly when that source
value is; non-emptiness is not enforced by the resolver. -/
theorem c9_amended (cfg : Config) (data : MarathonApp) :
    (cfg.verification_method.getD "http" = "http" →
      (get_domains cfg (some data)).1 =
        match data.labels.lookup "HAPROXY_0_VHOST" with
        | some vhost => .ok (some vhost)
        | none => .error (.keyError "HAPROXY_0_VHOST")) ∧
    (cfg.verification_method.getD "http" = "dns" →
      (get_domains cfg (some data)).1 = .ok cfg.domains_var) := by
  constructor
  · intro h
    simp [get_domains, h]
  · intro h
    simp [get_domains, h]

/-- Witness for the amended C9 at concrete inputs. -/
theorem c9_amended_witness :
    (get_domains cfg_http (some app_sample)).1 = .ok (some "a.example.com,b.example.com") ∧
    (get_domains cfg_dns (some app_sample)).1 = .ok (some "x.example.com") := by
  constructor
  · exact ((c9_amended cfg_http app_sample).1 rfl).trans (by rfl)
  · exact ((c9_amended cfg_dns app_sample).2 rfl).trans (by rfl)

/-- Claim C10: with the verification-method variable absent, both domain
resolution and issuer argument construction behave exactly as with the method
explicitly set to http; and the unknown-verification-method error occurs only
when the variable is explicitly set to a value that is neither http nor dns. -/
theorem c10_default_http :
    (∀ (cfg : Config) (fetched : Option MarathonApp) (domains : String)
        (fs : FsState) (rc : Int),
      cfg.verification_method = none →
        get_domains cfg fetched =
          get_domains { cfg with verification_method := some "http" } fetched ∧
        generate_letsencrypt_cert domains cfg fs rc =
          generate_letsencrypt_cert domains
            { cfg with verification_method := some "http" } fs rc) ∧
    (∀ (cfg : Config) (fetched : Option MarathonApp) (m : String),
      (get_domains cfg fetched).1 = .error (.unknownVerificationMethod m) →
        cfg.verification_method = some m ∧ m ≠ "http" ∧ m ≠ "dns") := by
  constructor
  · intro cfg fetched domains fs rc h
    constructor
    · cases fetched with
      | none => rfl
      | some data => simp [get_domains, h]
    · simp [generate_letsencrypt_cert, generate_args, add_challenge_args, h]
  · intro cfg fetched m h
    cases fetched with
    | none => simp [get_domains] at h
    | some data =>
      unfold get_domains at h
      by_cases h1 : cfg.verification_method.getD "http" = "http"
      · simp only [h1, if_true] at h
        cases hl : data.labels.lookup "HAPROXY_0_VHOST" <;> simp [hl] at h
      · by_cases h2 : cfg.verification_method.getD "http" = "dns"
        · simp only [h1, h2, if_false, if_true] at h
          simp at h
        · simp only [h1, h2, if_false] at h
          simp at h
          have hm : cfg.verification_method.getD "http" = m := h
          refine ⟨?_, ?_, ?_⟩
          · cases hvm : cfg.verification_method with
            | none =>
              exfalso
              apply h1
              rw [hvm]
              simp
            | some s =>
              rw [hvm] at hm
              simp at hm
              rw [hm]
          · intro hcontra
            exact h1 (hm.trans hcontra)
          · intro hcontra
            exact h2 (hm.trans hcontra)

/-- Witness for C10 at concrete inputs. -/
theorem c10_default_http_witness :
    get_domains cfg_default (some app_sample) =
      get_domains { cfg_default with verification_method := some "http" } (some app_sample) ∧
    generate_letsencrypt_cert "a.example.com" cfg_default fs_sample 0 =
      generate_letsencrypt_cert "a.example.com"
        { cfg_default with verification_method := some "http" } fs_sample 0 ∧
    (cfg_bad.verification_method = some "tls" ∧ "tls" ≠ "http" ∧ "tls" ≠ "dns") := by
  refine ⟨?_, ?_, ?_⟩
  · exact (c10_default_http.1 cfg_default (some app_sample) "a.example.com" fs_sample 0 rfl).1
  · exact (c10_default_http.1 cfg_default (some app_sample) "a.example.com" fs_sample 0 rfl).2
  · exact c10_default_http.2 cfg_bad (some app_sample) "tls" rfl

end Cert
